import Mathlib

/-!
# Verification of the jimeng4 image-generator client

Shallow embedding of `main.py` (API client: request signing, polling,
image saving, CLI validation) and `app.py` (Flask web UI: request
validation, output serving), with theorems checking the natural-language
specification against the code.

Machine integers are modelled as `Nat`/`Int` with explicit reduction
modulo `2^32` where the underlying operations wrap; Python floats that
only ever face order comparisons and clamping are modelled as `Rat`;
fallible operations are modelled by explicit outcome parameters.
-/

namespace Jimeng4

/-! ## 32-bit word primitives

`hashlib.sha256` / `hmac` / `base64.b64encode` from the Python standard
library, as called by `Jimeng4APIClient._generate_signature`, are
implemented here over `List Nat` byte strings (each byte `< 256`), with
32-bit words as `Nat` reduced modulo `2^32` where the operations wrap. -/

/-- Word-size reduction: keep the low 32 bits. -/
def w32 (n : Nat) : Nat := n % 4294967296

/-- 32-bit complement (XOR with the all-ones word). -/
def not32 (a : Nat) : Nat := 4294967295 ^^^ w32 a

/-- Right-rotation of a 32-bit word by `n` places (`0 ≤ n < 32`). -/
def rotr32 (n x : Nat) : Nat := w32 ((x >>> n) ||| (x <<< (32 - n)))

/-! ## SHA-256 (FIPS 180-4) over `List Nat` bytes -/

/-- `Ch(x,y,z) = (x ∧ y) ⊕ (¬x ∧ z)`. -/
def ch32 (x y z : Nat) : Nat := (x &&& y) ^^^ (not32 x &&& z)

/-- `Maj(x,y,z) = (x ∧ y) ⊕ (x ∧ z) ⊕ (y ∧ z)`. -/
def maj32 (x y z : Nat) : Nat := (x &&& y) ^^^ (x &&& z) ^^^ (y &&& z)

/-- `Σ₀`. -/
def bsig0 (x : Nat) : Nat := rotr32 2 x ^^^ rotr32 13 x ^^^ rotr32 22 x

/-- `Σ₁`. -/
def bsig1 (x : Nat) : Nat := rotr32 6 x ^^^ rotr32 11 x ^^^ rotr32 25 x

/-- `σ₀`. -/
def ssig0 (x : Nat) : Nat := rotr32 7 x ^^^ rotr32 18 x ^^^ (x >>> 3)

/-- `σ₁`. -/
def ssig1 (x : Nat) : Nat := rotr32 17 x ^^^ rotr32 19 x ^^^ (x >>> 10)

/-- The 64 SHA-256 round constants (FIPS 180-4 §4.2.2, written in
decimal). -/
def shaK : List Nat :=
  [1116352408, 1899447441, 3049323471, 3921009573, 961987163, 1508970993,
   2453635748, 2870763221, 3624381080, 310598401, 607225278, 1426881987,
   1925078388, 2162078206, 2614888103, 3248222580, 3835390401, 4022224774,
   264347078, 604807628, 770255983, 1249150122, 1555081692, 1996064986,
   2554220882, 2821834349, 2952996808, 3210313671, 3336571891, 3584528711,
   113926993, 338241895, 666307205, 773529912, 1294757372, 1396182291,
   1695183700, 1986661051, 2177026350, 2456956037, 2730485921, 2820302411,
   3259730800, 3345764771, 3516065817, 3600352804, 4094571909, 275423344,
   430227734, 506948616, 659060556, 883997877, 958139571, 1322822218,
   1537002063, 1747873779, 1955562222, 2024104815, 2227730452, 2361852424,
   2428436474, 2756734187, 3204031479, 3329325298]

/-- The eight SHA-256 initial hash values (FIPS 180-4 §5.3.3, written in
decimal). -/
def shaH0 : List Nat :=
  [1779033703, 3144134277, 1013904242, 2773480762,
   1359893119, 2600822924, 528734635, 1541459225]

/-- `count` bytes of `v`, big-endian. -/
def bytesBE : Nat → Nat → List Nat
  | 0, _ => []
  | k + 1, v => bytesBE k (v / 256) ++ [v % 256]

/-- SHA-256 message padding: append `0x80`, zero bytes to 56 mod 64, then the
64-bit big-endian bit length. -/
def sha256Pad (msg : List Nat) : List Nat :=
  msg ++ 0x80 :: (List.replicate ((64 - (msg.length + 9) % 64) % 64) 0 ++ bytesBE 8 (8 * msg.length))

/-- Group a byte string into big-endian 32-bit words. -/
def toWords : List Nat → List Nat
  | b0 :: b1 :: b2 :: b3 :: rest => (((b0 * 256 + b1) * 256 + b2) * 256 + b3) :: toWords rest
  | _ => []

/-- Extend a 16-word block by `k` further schedule words. -/
def extendWords : Nat → List Nat → List Nat
  | 0, ws => ws
  | k + 1, ws =>
    let i := ws.length
    extendWords k
      (ws ++ [w32 (ssig1 (ws.getD (i - 2) 0) + ws.getD (i - 7) 0 +
                   ssig0 (ws.getD (i - 15) 0) + ws.getD (i - 16) 0)])

/-- The 64 rounds of the SHA-256 compression function, driven by the constant
and schedule lists, on an 8-word working state. -/
def shaRounds : List Nat → List Nat → List Nat → List Nat
  | kc :: ks, w :: ws, [a, b, c, d, e, f, g, h] =>
    let t1 := w32 (h + bsig1 e + ch32 e f g + kc + w)
    let t2 := w32 (bsig0 a + maj32 a b c)
    shaRounds ks ws [w32 (t1 + t2), a, b, c, w32 (d + t1), e, f, g]
  | _, _, st => st

/-- Process one 16-word block against the current 8-word hash state. -/
def compressBlock (st block : List Nat) : List Nat :=
  let st' := shaRounds shaK (extendWords 48 block) st
  (List.zip st st').map (fun p => w32 (p.1 + p.2))

/-- Fold the compression function over the first `n` 16-word blocks of a word
list (structural recursion on the block count, so the kernel can reduce it). -/
def foldBlocks : Nat → List Nat → List Nat → List Nat
  | 0, st, _ => st
  | n + 1, st, ws => foldBlocks n (compressBlock st (ws.take 16)) (ws.drop 16)

/-- SHA-256 digest (32 bytes) of a byte string. -/
def sha256 (msg : List Nat) : List Nat :=
  let ws := toWords (sha256Pad msg)
  ((foldBlocks (ws.length / 16) shaH0 ws).map (bytesBE 4)).flatten

/-! ## HMAC-SHA256 (FIPS 198-1) and base64 -/

/-- Normalize an HMAC key to the 64-byte SHA-256 block size. -/
def hmacKeyBlock (key : List Nat) : List Nat :=
  let k0 := if key.length > 64 then sha256 key else key
  k0 ++ List.replicate (64 - k0.length) 0

/-- HMAC-SHA256 of `msg` under `key`, as computed by Python's
`hmac.new(key, msg, hashlib.sha256).digest()`. -/
def hmacSha256 (key msg : List Nat) : List Nat :=
  let kb := hmacKeyBlock key
  sha256 (kb.map (fun b => b ^^^ 0x5c) ++ sha256 (kb.map (fun b => b ^^^ 0x36) ++ msg))

/-- The base64 alphabet. -/
def b64Alphabet : List Char :=
  "ABCDEFGHIJKLMNOPQRSTUVWXYZabcdefghijklmnopqrstuvwxyz0123456789+/".data

/-- The base64 digit character for a 6-bit value. -/
def b64Char (n : Nat) : Char := b64Alphabet.getD n 'A'

/-- Encode 3-byte groups into 4 base64 characters, `=`-padding the tail,
as Python's `base64.b64encode` does. -/
def b64Groups : List Nat → List Char
  | [] => []
  | [b0] =>
    let v := b0 * 65536
    [b64Char (v / 262144), b64Char (v / 4096 % 64), '=', '=']
  | [b0, b1] =>
    let v := b0 * 65536 + b1 * 256
    [b64Char (v / 262144), b64Char (v / 4096 % 64), b64Char (v / 64 % 64), '=']
  | b0 :: b1 :: b2 :: rest =>
    let v := b0 * 65536 + b1 * 256 + b2
    b64Char (v / 262144) :: b64Char (v / 4096 % 64) :: b64Char (v / 64 % 64) :: b64Char (v % 64) ::
      b64Groups rest

/-- base64 encoding of a byte string, decoded to a Lean `String`
(Python: `base64.b64encode(h.digest()).decode('utf-8')`). -/
def base64Encode (bs : List Nat) : String := String.mk (b64Groups bs)

/-- UTF-8 encoding of one Unicode scalar value (Python `str.encode('utf-8')`
acts per character the same way). -/
def utf8Char (c : Char) : List Nat :=
  let n := c.toNat
  if n < 128 then [n]
  else if n < 2048 then [192 + n / 64, 128 + n % 64]
  else if n < 65536 then [224 + n / 4096, 128 + n / 64 % 64, 128 + n % 64]
  else [240 + n / 262144, 128 + n / 4096 % 64, 128 + n / 64 % 64, 128 + n % 64]

/-- UTF-8 encoding of a string as a byte list (Python `s.encode('utf-8')`). -/
def utf8Encode (s : String) : List Nat := (s.data.map utf8Char).flatten

/-! ## Python string helpers

Executable models of the Python `str` methods the code uses, over the
character list of a Lean `String`. -/

/-- Python whitespace for default `str.strip()` (ASCII part; all inputs the
claims touch are ASCII). -/
def isPySpace (c : Char) : Bool :=
  c == ' ' || c == '\t' || c == '\n' || c == '\r' || c == '\x0b' || c == '\x0c'

/-- Python `s.strip()`: remove leading and trailing whitespace. -/
def pyStrip (s : String) : String :=
  String.mk (((s.data.dropWhile isPySpace).reverse.dropWhile isPySpace).reverse)

/-- Python `s.startswith(p)`. -/
def pyStartsWith (s p : String) : Bool := p.data.isPrefixOf s.data

/-- Python `s.split(sep)` for a one-character separator, on character
lists: every occurrence of the separator ends a field, so `n` separators
yield `n + 1` fields (`"".split('/') == [""]`). -/
def splitOnChar (sep : Char) : List Char → List (List Char)
  | [] => [[]]
  | c :: rest =>
    let r := splitOnChar sep rest
    if c == sep then [] :: r
    else
      match r with
      | h :: t => (c :: h) :: t
      | [] => [[c]]

/-- Python `s.split(sep)` for a one-character separator. -/
def pySplit (sep : Char) (s : String) : List String :=
  (splitOnChar sep s.data).map String.mk

/-! ## Signer: `Jimeng4APIClient._generate_signature` -/

/-- `headers.get(k, '')`: exact-key lookup in a header mapping with default
empty string. -/
def headerGet (headers : List (String × String)) (k : String) : String :=
  match headers.find? (fun p => p.1 == k) with
  | some p => p.2
  | none => ""

/-- The canonical string built by `_generate_signature`:
`f"{method}\n"` + content type + `"\n"` + content MD5 + `"\n"` + date +
`"\n"` + `f"{path}\n"` — note the trailing newline after the path. -/
def sign_content (method path : String) (headers : List (String × String)) : String :=
  method ++ "\n" ++ headerGet headers "Content-Type" ++ "\n" ++
    headerGet headers "Content-MD5" ++ "\n" ++ headerGet headers "Date" ++ "\n" ++ path ++ "\n"

set_option linter.unusedVariables false in
/-- `Jimeng4APIClient._generate_signature(method, path, headers, body)`:
base64 of HMAC-SHA256 keyed by the UTF-8 secret key over the UTF-8
canonical string. The `body` parameter is accepted but never used. -/
def generate_signature (secret_key method path : String) (headers : List (String × String))
    (body : String) : String :=
  base64Encode (hmacSha256 (utf8Encode secret_key) (utf8Encode (sign_content method path headers)))

/-- Spec-side definition (for comparison with `generate_signature`): the
newline-JOINED canonical string `METHOD\nContentType\nContentMD5\nDate\nPath`
with no characters beyond the five newline-separated fields. -/
def spec_canonical (method path : String) (headers : List (String × String)) : String :=
  method ++ "\n" ++ headerGet headers "Content-Type" ++ "\n" ++
    headerGet headers "Content-MD5" ++ "\n" ++ headerGet headers "Date" ++ "\n" ++ path

/-- Spec-side definition: the credential the spec describes, a keyed hash of
`spec_canonical` (no trailing newline). -/
def spec_credential (secret_key method path : String) (headers : List (String × String)) : String :=
  base64Encode (hmacSha256 (utf8Encode secret_key) (utf8Encode (spec_canonical method path headers)))

/-! ## RequestBuilder: `Jimeng4APIClient._prepare_request` -/

/-- The request configuration returned by `_prepare_request`. -/
structure RequestConfig where
  url : String
  headers : List (String × String)
  data : String
deriving DecidableEq

/-- `self.base_url`. -/
def base_url : String := "https://ark.cn-beijing.volces.com/api/v3"

/-- `self.user_agent`. -/
def user_agent : String := "Jimeng4-Image-Generator"

/-- `Jimeng4APIClient._prepare_request(method, path, data)`. The current UTC
`Date` header value and the serialized body (`json.dumps(data) if data else ""`)
enter as the parameters `date` and `body`. -/
def prepare_request (access_key secret_key method path body date : String) : RequestConfig :=
  let headers := [("Content-Type", "application/json"), ("User-Agent", user_agent),
                  ("Date", date)]
  let signature := generate_signature secret_key method path headers body
  { url := base_url ++ path,
    headers := headers ++ [("Authorization", "HMAC-SHA256 " ++ access_key ++ ":" ++ signature)],
    data := body }

/-! ## ApiClient: `Jimeng4APIClient.generate_image` -/

/-- One entry of a provider `data` array: `url` and/or `b64_json` and/or
`seed`, each possibly absent. -/
structure ImageDescriptor where
  url : Option String
  b64_json : Option String
  seed : Option Int
deriving DecidableEq, Repr

/-- The provider response JSON as far as the client inspects it: an optional
`data` array and an optional `status` field. -/
structure ApiResponse where
  data : Option (List ImageDescriptor)
  status : Option String
deriving DecidableEq, Repr

/-- Outcome of the HTTP POST in `generate_image`: `failure` covers a
`requests` transport error as well as a non-2xx status (which
`raise_for_status` turns into an exception); `success` is a 2xx response
with its parsed JSON. -/
inductive PostOutcome where
  | failure
  | success (resp : ApiResponse)
deriving DecidableEq

/-- The JSON request body assembled by `generate_image` (provider wire
names). -/
structure RequestBody where
  model : String
  prompt : String
  size : String
  n : Int
  seed : Int
  cfg_scale : Rat
  watermark : Bool
deriving DecidableEq, Repr

/-- The synthetic placeholder `data` array produced in the
`except requests.exceptions.RequestException` branch of `generate_image`:
`[{"url": f"https://example.com/generated_image_{i}.jpg", "seed": seed + i}
for i in range(count)]`. -/
def placeholder_data (count seed : Int) : List ImageDescriptor :=
  (List.range count.toNat).map fun (i : Nat) =>
    { url := some ("https://example.com/generated_image_" ++ toString i ++ ".jpg"),
      b64_json := none,
      seed := some (seed + (i : Int)) }

/-- `Jimeng4APIClient.generate_image`. The parameter `r` is the value of
`random.randint(1, 1000000)` drawn when `seed == -1`; `outcome` is the result
of the HTTP POST. Returns the JSON body that is sent together with the value
the Python function returns: the parsed response on success, or the synthetic
placeholder response on failure (the exception is caught, never re-raised). -/
def generate_image (prompt size : String) (count seed : Int) (scale : Rat)
    (with_watermark : Bool) (r : Int) (outcome : PostOutcome) : RequestBody × ApiResponse :=
  let seed1 := if seed = -1 then r else seed
  let body : RequestBody :=
    { model := "jimeng-v4", prompt := prompt, size := size, n := count,
      seed := seed1, cfg_scale := scale, watermark := with_watermark }
  match outcome with
  | .success resp => (body, resp)
  | .failure => (body, { data := some (placeholder_data count seed1), status := none })

/-! ## ApiClient: `Jimeng4APIClient.wait_for_result` -/

/-- The task-status JSON fetched by one poll, as far as the client inspects
it: the `status` and `error` fields, plus an abstract payload distinguishing
otherwise-equal results. -/
structure TaskResult where
  status : Option String
  error : Option String
  payload : Nat
deriving DecidableEq, Repr

/-- Outcome of one `requests.get` poll: a transport error / non-2xx status
(raised and swallowed by the `except` branch) or a 2xx response with parsed
JSON. -/
inductive PollOutcome where
  | transportError
  | response (r : TaskResult)
deriving DecidableEq

/-- `result.get("status") == "succeeded" or ... == "failed"`. -/
def isTerminal (r : TaskResult) : Bool :=
  r.status == some "succeeded" || r.status == some "failed"

/-- Whether a poll outcome carries a terminal task result. -/
def outcomeTerminal : PollOutcome → Bool
  | .transportError => false
  | .response r => isTerminal r

/-- The synthetic result returned on deadline expiry:
`{"status": "timeout", "error": "Task timed out"}`. -/
def timeoutResult : TaskResult :=
  { status := some "timeout", error := some "Task timed out", payload := 0 }

/-- The polling loop of `wait_for_result`, time passing modelled explicitly:
each `requests.get` is instantaneous, each `time.sleep(poll_interval)`
advances the clock by `poll_interval`, so the `k`-th poll happens at elapsed
time `k * poll_interval` and the `while time.time() - start_time < timeout`
guard compares that elapsed time with `timeout`. `polls k` is the outcome of
the `k`-th poll; the second component of the result counts the polls issued.
The loop terminates for every positive `poll_interval` (for
`poll_interval = 0` the Python loop would spin without the clock advancing,
which is why `hp` is required). -/
def wait_go (polls : Nat → PollOutcome) (timeout poll_interval : Nat)
    (hp : 0 < poll_interval) (k : Nat) : TaskResult × Nat :=
  if _h : k * poll_interval < timeout then
    match polls k with
    | .response r =>
      if isTerminal r then (r, k + 1)
      else wait_go polls timeout poll_interval hp (k + 1)
    | .transportError => wait_go polls timeout poll_interval hp (k + 1)
  else
    (timeoutResult, k)
termination_by timeout - k * poll_interval
decreasing_by
  all_goals simp only [Nat.succ_mul]; omega

/-- `Jimeng4APIClient.wait_for_result(task_id, timeout, poll_interval)`:
run the polling loop from elapsed time zero. Returns the Python return value
together with the number of polls issued. -/
def wait_for_result (polls : Nat → PollOutcome) (timeout poll_interval : Nat)
    (hp : 0 < poll_interval) : TaskResult × Nat :=
  wait_go polls timeout poll_interval hp 0

/-! ## ImageSaver: `save_images` and `save_images_from_base64` -/

/-- `f"image_{timestamp}_{i}.jpg"`. -/
def image_filename (timestamp : String) (i : Nat) : String :=
  "image_" ++ timestamp ++ "_" ++ toString i ++ ".jpg"

/-- `os.path.join(output_dir, filename)` for a relative filename. -/
def path_join (dir filename : String) : String := dir ++ "/" ++ filename

/-- The `if url and url.startswith("http")` guard of `save_images`:
the descriptor has a `url` field that is truthy (present, non-empty) and
starts with `"http"`. -/
def hasValidUrl (d : ImageDescriptor) : Bool :=
  match d.url with
  | some u => !(u == "") && pyStartsWith u "http"
  | none => false

/-- The `if base64_data` guard of `save_images_from_base64`: the descriptor
has a truthy `b64_json` field. -/
def hasInlineData (d : ImageDescriptor) : Bool :=
  match d.b64_json with
  | some b => !(b == "")
  | none => false

/-- Loop body of `save_images`, from item index `i`. `fetch i` tells whether
the guarded per-item work (the `requests.get` download, `raise_for_status`
and the disk write) succeeds for item `i`; when it is `false` the per-item
`except Exception` catches the failure and the loop continues with the next
item. `ts i` is the `datetime.now().strftime("%Y%m%d_%H%M%S")` value read
during iteration `i`. -/
def save_images_go (fetch : Nat → Bool) (output_dir : String) (ts : Nat → String) :
    List ImageDescriptor → Nat → List String
  | [], _ => []
  | d :: rest, i =>
    let filepath := path_join output_dir (image_filename (ts i) i)
    let saved_rest := save_images_go fetch output_dir ts rest (i + 1)
    if hasValidUrl d then
      if fetch i then filepath :: saved_rest else saved_rest
    else saved_rest

/-- `save_images(images_data, output_dir)`: best-effort download of each
descriptor carrying a valid URL; returns the list of file paths written. -/
def save_images (images_data : List ImageDescriptor) (fetch : Nat → Bool)
    (output_dir : String) (ts : Nat → String) : List String :=
  save_images_go fetch output_dir ts images_data 0

/-- Loop body of `save_images_from_base64`, from item index `i`. `eff i`
tells whether the guarded per-item work (the `base64.b64decode` and the disk
write) succeeds for item `i`. -/
def save_images_from_base64_go (eff : Nat → Bool) (output_dir : String) (ts : Nat → String) :
    List ImageDescriptor → Nat → List String
  | [], _ => []
  | d :: rest, i =>
    let saved_rest := save_images_from_base64_go eff output_dir ts rest (i + 1)
    if hasInlineData d then
      if eff i then path_join output_dir (image_filename (ts i) i) :: saved_rest
      else saved_rest
    else saved_rest

/-- `save_images_from_base64(images_data, output_dir)`: best-effort decode
of each descriptor carrying inline base64 data; returns the list of file
paths written. -/
def save_images_from_base64 (images_data : List ImageDescriptor) (eff : Nat → Bool)
    (output_dir : String) (ts : Nat → String) : List String :=
  save_images_from_base64_go eff output_dir ts images_data 0

/-! ## Orchestrator, CLI entry point: `main()` of `main.py` -/

/-- Python truthiness of an optional string (`None` and `""` are falsy). -/
def truthyOpt : Option String → Bool
  | none => false
  | some s => !(s == "")

/-- Python `a or b` on optional strings: the first truthy value. -/
def orTruthy (a b : Option String) : Option String :=
  if truthyOpt a then a else b

/-- The `valid_sizes` list of `main()` (and of the `/generate` route). -/
def valid_sizes : List String :=
  ["1024x1024", "1024x1792", "1792x1024", "2048x2048", "2560x1440", "1440x2560"]

/-- Parsed command-line arguments of `main.py` (after `argparse`). `scale` is
the parsed `float`, modelled as a rational: the only operations applied to it
are order comparisons against 0 and 1, on which the two agree for every
decimal literal. -/
structure CliArgs where
  prompt : Option String
  file : Option String
  output : String
  size : String
  count : Int
  seed : Int
  scale : Rat
  no_watermark : Bool
  access_key : Option String
  secret_key : Option String
deriving DecidableEq, Repr

/-- What `main()` is about to do once validation has completed: the prompt
list and the parameters of the `client.generate_image` calls that follow
(each of which performs the network POST). -/
structure CliRun where
  prompts : List String
  output : String
  size : String
  count : Int
  seed : Int
  scale : Rat
  with_watermark : Bool
deriving DecidableEq, Repr

/-- Result of the validation phase of `main()`: either `sys.exit(code)`
before any client is constructed (so before any network call), or entry
into the generation loop. -/
inductive CliOutcome where
  | exitError (code : Nat)
  | run (r : CliRun)
deriving DecidableEq, Repr

/-- The prompt-acquisition block of `main()`: `--file` contents (error when
empty), else a truthy `--prompt`, else one interactive `input()` line (error
when blank after stripping). `none` models the `sys.exit(1)` branches.
`filePrompts` models `load_prompts_from_file(args.file)` (its stripped,
non-comment lines) and `stdinLine` models the `input()` answer. -/
def select_prompts (args : CliArgs) (filePrompts : List String) (stdinLine : String) :
    Option (List String) :=
  if truthyOpt args.file then
    if filePrompts.isEmpty then none else some filePrompts
  else if truthyOpt args.prompt then some [args.prompt.getD ""]
  else if !(pyStrip stdinLine == "") then some [stdinLine]
  else none

/-- The validation phase of `main()`, in source order: credential check
(flags `or` environment), size check, count check, scale check, then prompt
acquisition. `envAK`/`envSK` model `os.getenv` of the two credential
variables. -/
def cliMain (args : CliArgs) (envAK envSK : Option String)
    (filePrompts : List String) (stdinLine : String) : CliOutcome :=
  let access_key := orTruthy args.access_key envAK
  let secret_key := orTruthy args.secret_key envSK
  if !truthyOpt access_key || !truthyOpt secret_key then .exitError 1
  else if !(valid_sizes.contains args.size) then .exitError 1
  else if args.count < 1 || args.count > 10 then .exitError 1
  else if args.scale < 0 || args.scale > 1 then .exitError 1
  else
    match select_prompts args filePrompts stdinLine with
    | none => .exitError 1
    | some prompts =>
      .run { prompts := prompts, output := args.output, size := args.size,
             count := args.count, seed := args.seed, scale := args.scale,
             with_watermark := !args.no_watermark }

/-! ## Orchestrator, HTTP entry point: the `/generate` route of `app.py` -/

/-- The fields the `/generate` route extracts from the request JSON, after
`data.get(...)` defaults and the `int`/`float` conversions. `prompt` is
`none` when the key is absent (`'prompt' not in data`). -/
structure GenReqBody where
  prompt : Option String
  size : String
  count : Int
  seed : Int
  scale : Rat
  no_watermark : Bool
deriving DecidableEq, Repr

/-- Observable outcome of the `/generate` route's validation phase: an early
`jsonify(...), 400` rejection, or the call into `generate_image` of `app.py`
(which spawns `main.py` as a subprocess and hence leads to the provider
POST) with the values actually passed. -/
inductive HttpOutcome where
  | reject (status : Nat)
  | invoke (prompt size : String) (count seed : Int) (scale : Rat) (with_watermark : Bool)
deriving DecidableEq, Repr

/-- The `/generate` route of `app.py` (`generate()`), validation phase, in
source order: missing-JSON / missing-prompt check, `strip()`, empty-prompt
check, clamping `count = min(max(1, count), 10)`, the 500-character length
check on the stripped prompt, the size check, clamping
`scale = min(max(0, scale), 1)`, then the call to `generate_image`.
`data = none` models a request without a JSON body. -/
def generate_route (data : Option GenReqBody) : HttpOutcome :=
  match data with
  | none => .reject 400
  | some d =>
    match d.prompt with
    | none => .reject 400
    | some p0 =>
      let prompt := pyStrip p0
      if prompt == "" then .reject 400
      else
        let count := min (max 1 d.count) 10
        if prompt.length > 500 then .reject 400
        else if !(valid_sizes.contains d.size) then .reject 400
        else
          let scale := min (max 0 d.scale) 1
          .invoke prompt d.size count d.seed scale (!d.no_watermark)

/-! ## Output directory naming and file serving (`app.py`) -/

/-- The per-invocation output directory path built by `generate_image` of
`app.py`: `os.path.join(OUTPUT_FOLDER, f"{timestamp}_{task_id}")`, where
`task_id = str(uuid.uuid4())[:8]` is the per-invocation random id and
`timestamp = datetime.now().strftime("%Y%m%d_%H%M%S")` has one-second
resolution. -/
def output_dir_name (output_folder timestamp task_id : String) : String :=
  path_join output_folder (timestamp ++ "_" ++ task_id)

/-- Result of the `/output/<path:filename>` route: serve the file
`file_name` from directory `dir_name`, or the `("Invalid path", 404)`
response. -/
inductive ServeResult where
  | sendFile (dir_name file_name : String)
  | invalidPath404
deriving DecidableEq, Repr

/-- The `serve_image` route of `app.py`: split the requested path on `/`;
exactly two parts are served via `send_from_directory`, any other shape
gets a 404 and no file is served. -/
def serve_image (filename : String) : ServeResult :=
  let parts := pySplit '/' filename
  if parts.length = 2 then .sendFile (parts.getD 0 "") (parts.getD 1 "")
  else .invalidPath404

/-! ## Spec-side formulation of the ImageSaver result

The spec describes both entry points as returning "exactly the list of
successfully written file paths". This closed-form expression — filter the
indexed descriptor list by the per-item guard and the per-item success, then
map to the file path — is the spec's description, to be compared with the
recursive loops above. -/

/-- The file paths of exactly those items that pass the guard `keep` and
whose per-item work succeeds. -/
def saved_paths (keep : ImageDescriptor → Bool) (eff : Nat → Bool)
    (output_dir : String) (ts : Nat → String) (images : List ImageDescriptor) : List String :=
  ((images.enum).filter (fun q => keep q.2 && eff q.1)).map
    (fun q => path_join output_dir (image_filename (ts q.1) q.1))

/-! ## Concrete instances used by witnesses and counterexamples -/

/-- A poll oracle whose every poll fails with a transport error. -/
def pollsAllFail : Nat → PollOutcome := fun _ => .transportError

/-- The terminal result reported by `pollsSucceedAt1`. -/
def succeededAt1 : TaskResult := { status := some "succeeded", error := none, payload := 7 }

/-- A poll oracle whose second poll (index 1) reports success; every other
poll fails with a transport error. -/
def pollsSucceedAt1 : Nat → PollOutcome := fun k =>
  if k = 1 then .response succeededAt1 else .transportError

/-- A 501-character prompt. -/
def longPrompt : String := String.mk (List.replicate 501 'a')

/-- A 502-character prompt. -/
def longPromptB : String := String.mk (List.replicate 502 'b')

/-- CLI arguments that are valid except for `--count 0`. -/
def argsCount0 : CliArgs :=
  { prompt := some "a cat", file := none, output := "output", size := "2048x2048",
    count := 0, seed := -1, scale := mkRat 1 2, no_watermark := false,
    access_key := some "ak", secret_key := some "sk" }

/-- CLI arguments that are valid except for `--count 11`. -/
def argsCount11 : CliArgs := { argsCount0 with count := 11 }

/-- CLI arguments that are valid except for `--scale -0.1`. -/
def argsScaleNeg : CliArgs := { argsCount0 with count := 1, scale := mkRat (-1) 10 }

/-- CLI arguments that are valid except for `--scale 1.1`. -/
def argsScaleBig : CliArgs := { argsCount0 with count := 1, scale := mkRat 11 10 }

/-- CLI arguments that are valid except for `--size 999x999`. -/
def argsBadSize : CliArgs := { argsCount0 with count := 1, size := "999x999" }

/-- CLI arguments with no prompt source at all. -/
def argsNoPrompt : CliArgs := { argsCount0 with count := 1, prompt := none }

/-- CLI arguments with a 501-character prompt and everything else valid. -/
def argsLongPrompt : CliArgs := { argsCount0 with count := 1, prompt := some longPrompt }

/-- CLI arguments with a 502-character prompt and everything else valid. -/
def argsLongPromptB : CliArgs := { argsCount0 with count := 1, prompt := some longPromptB }

/-- A `/generate` request body that is valid except for `count = 0`. -/
def bodyCount0 : GenReqBody :=
  { prompt := some "a cat", size := "1024x1024", count := 0, seed := -1,
    scale := mkRat 1 2, no_watermark := false }

/-- A `/generate` request body that is valid except for `count = 11`. -/
def bodyCount11 : GenReqBody := { bodyCount0 with count := 11 }

/-- A `/generate` request body with an empty prompt. -/
def bodyEmptyPrompt : GenReqBody := { bodyCount0 with count := 1, prompt := some "" }

/-- A `/generate` request body that is valid except for `size = "999x999"`. -/
def bodyBadSize : GenReqBody := { bodyCount0 with count := 1, size := "999x999" }

/-- A `/generate` request body that is valid except for `scale = 1.1`. -/
def bodyScaleBig : GenReqBody := { bodyCount0 with count := 1, scale := mkRat 11 10 }

/-- A `/generate` request body with a 501-character prompt and everything
else valid. -/
def bodyLongPrompt : GenReqBody := { bodyCount0 with count := 1, prompt := some longPrompt }

/-! ## Helper lemmas -/

/-- String concatenation cancels on the left. -/
theorem string_append_left_cancel (p a b : String) (h : p ++ a = p ++ b) : a = b := by
  have hd : p.data ++ a.data = p.data ++ b.data := congrArg String.data h
  have hab : a.data = b.data := List.append_cancel_left hd
  cases a
  cases b
  exact congrArg String.mk hab

/-! ## C1: the Signer's canonical string -/

set_option maxRecDepth 1000000 in
set_option maxHeartbeats 4000000 in
/-- C1 (counterexample): the credential computed by `_generate_signature` is
NOT the base64 HMAC-SHA256 of the newline-joined five-field canonical string:
at secret `"k"`, method `"GET"`, path `"/t"` and an empty header mapping the
two values differ, because the code appends a trailing newline after the
path. -/
theorem c1_counterexample :
    generate_signature "k" "GET" "/t" [] "" ≠ spec_credential "k" "GET" "/t" [] := by
  decide

/-- C1 (amended): for every method, path, headers mapping, secret key and
body, the credential equals the base64 HMAC-SHA256 (keyed by the UTF-8
secret) of the five-field canonical string `METHOD\nContentType\nContentMD5\n
Date\nPath` followed by one trailing newline — the header fields defaulting
to the empty string when absent, and no other characters. -/
theorem c1_generate_signature_canonical (secret_key method path : String)
    (headers : List (String × String)) (body : String) :
    generate_signature secret_key method path headers body =
      base64Encode (hmacSha256 (utf8Encode secret_key)
        (utf8Encode (spec_canonical method path headers ++ "\n"))) := rfl

/-! ## C4: placeholder result on POST failure -/

/-- C4: when the HTTP POST fails (transport error or non-2xx status),
`generate_image` does not raise: it returns a response whose `data` array
has exactly `count` descriptors, each carrying a placeholder URL. (In the
embedding "does not raise" is structural: the failure branch returns a
value.) -/
theorem c4_generate_image_placeholder (prompt size : String) (count seed : Int)
    (scale : Rat) (wm : Bool) (r : Int) (hc : 0 ≤ count) :
    ∃ imgs, (generate_image prompt size count seed scale wm r .failure).2.data = some imgs ∧
      (imgs.length : Int) = count ∧
      ∀ d ∈ imgs, ∃ i : Nat,
        d.url = some ("https://example.com/generated_image_" ++ toString i ++ ".jpg") := by
  refine ⟨placeholder_data count (if seed = -1 then r else seed), rfl, ?_, ?_⟩
  · have hlen : (placeholder_data count (if seed = -1 then r else seed)).length = count.toNat := by
      unfold placeholder_data
      rw [List.length_map, List.length_range]
    rw [hlen]
    exact Int.toNat_of_nonneg hc
  · intro d hd
    unfold placeholder_data at hd
    rw [List.mem_map] at hd
    obtain ⟨i, _, rfl⟩ := hd
    exact ⟨i, rfl⟩

/-- C4 (witness): at `count = 2` the failure response carries exactly two
placeholder descriptors. -/
theorem c4_witness :
    (0 : Int) ≤ 2 ∧
    ∃ imgs, (generate_image "a cat" "2048x2048" 2 5 (mkRat 1 2) true 9 .failure).2.data =
        some imgs ∧
      (imgs.length : Int) = 2 ∧
      ∀ d ∈ imgs, ∃ i : Nat,
        d.url = some ("https://example.com/generated_image_" ++ toString i ++ ".jpg") :=
  ⟨by decide, c4_generate_image_placeholder "a cat" "2048x2048" 2 5 (mkRat 1 2) true 9 (by decide)⟩

/-! ## C6: the seed actually sent when the user passes -1 -/

/-- C6 (counterexample): for a request with `seed = -1`, the JSON body sent
to the provider does NOT carry `seed = -1`: with the drawn
`random.randint(1, 1000000)` value 42 the body carries `seed = 42`. -/
theorem c6_counterexample :
    (generate_image "a cat" "2048x2048" 1 (-1) (mkRat 1 2) true 42 .failure).1.seed = 42 ∧
      (42 : Int) ≠ -1 := ⟨rfl, by decide⟩

/-- C6 (amended): for every generation request with `seed = -1`, the client
replaces the seed by the freshly drawn `random.randint(1, 1000000)` value
before building the body, so the JSON body carries that random value — in
particular never -1 — leaving the choice to the client, not the server. -/
theorem c6_seed_replaced (prompt size : String) (count : Int) (scale : Rat)
    (wm : Bool) (r : Int) (outcome : PostOutcome) (h1 : 1 ≤ r) (h2 : r ≤ 1000000) :
    (generate_image prompt size count (-1) scale wm r outcome).1.seed = r ∧
    (generate_image prompt size count (-1) scale wm r outcome).1.seed ≠ -1 := by
  have hbody : ∀ o, (generate_image prompt size count (-1) scale wm r o).1.seed = r := by
    intro o
    cases o <;> rfl
  refine ⟨hbody outcome, ?_⟩
  rw [hbody outcome]
  omega

/-- C6 (witness): with drawn value 7 the body carries seed 7, not -1. -/
theorem c6_witness :
    (1 : Int) ≤ 7 ∧ (7 : Int) ≤ 1000000 ∧
    ((generate_image "x" "1024x1024" 1 (-1) (mkRat 1 2) false 7 .failure).1.seed = 7 ∧
     (generate_image "x" "1024x1024" 1 (-1) (mkRat 1 2) false 7 .failure).1.seed ≠ -1) :=
  ⟨by decide, by decide,
    c6_seed_replaced "x" "1024x1024" 1 (mkRat 1 2) false 7 .failure (by decide) (by decide)⟩

/-! ## C8: output directory naming -/

/-- C8 (counterexample): the claim that any two same-second invocations get
distinct directory names fails as stated: the per-invocation random ids are
8-character `uuid4` prefixes and can coincide, and two invocations in the
same second whose ids both come out as `"abcd1234"` (a possible draw) are
mapped to the same directory. -/
theorem c8_counterexample :
    output_dir_name "output" "20251012_120000" "abcd1234" =
      output_dir_name "output" "20251012_120000" "abcd1234" ∧
    ("abcd1234" : String).length = 8 := ⟨rfl, by decide⟩

set_option linter.unusedVariables false in
/-- C8 (amended): two invocations started in the same second (same
`%Y%m%d_%H%M%S` timestamp) receive distinct output directories exactly when
their 8-character random id components differ; distinctness is not
guaranteed unconditionally, since the truncated `uuid4` ids themselves can
collide. -/
theorem c8_output_dir_distinct (folder timestamp id1 id2 : String)
    (h1 : id1.length = 8) (h2 : id2.length = 8) (hne : id1 ≠ id2) :
    output_dir_name folder timestamp id1 ≠ output_dir_name folder timestamp id2 := by
  intro he
  apply hne
  unfold output_dir_name path_join at he
  have h3 := string_append_left_cancel (folder ++ "/") _ _ he
  exact string_append_left_cancel (timestamp ++ "_") _ _ h3

/-- C8 (witness): ids `"aaaa0001"` and `"aaaa0002"` in the same second give
distinct directories. -/
theorem c8_witness :
    ("aaaa0001" : String).length = 8 ∧ ("aaaa0002" : String).length = 8 ∧
    output_dir_name "output" "20251012_120000" "aaaa0001" ≠
      output_dir_name "output" "20251012_120000" "aaaa0002" :=
  ⟨by decide, by decide,
    c8_output_dir_distinct "output" "20251012_120000" "aaaa0001" "aaaa0002"
      (by decide) (by decide) (by decide)⟩

/-! ## C9: serving saved files -/

/-- C9: every requested path under `/output/` that does not split into
exactly two `/`-separated segments is answered with the
`("Invalid path", 404)` response, and no file is served. -/
theorem c9_serve_image_rejects_malformed (filename : String)
    (h : (pySplit '/' filename).length ≠ 2) :
    serve_image filename = .invalidPath404 := by
  unfold serve_image
  exact if_neg h

/-- C9 (witness): the three-segment path `"a/b/c"` is answered with 404. -/
theorem c9_witness :
    (pySplit '/' "a/b/c").length ≠ 2 ∧ serve_image "a/b/c" = .invalidPath404 :=
  ⟨by decide, c9_serve_image_rejects_malformed "a/b/c" (by decide)⟩

/-! ## C10: the signature ignores the request body -/

/-- C10: the computed signature is independent of the request body — two
requests agreeing on method, path and headers but differing in body get the
identical credential — and the headers built by `_prepare_request` never
contain a `Content-MD5` entry, so no checksum of the body enters the
canonical string. -/
theorem c10_signature_ignores_body (secret_key method path : String)
    (headers : List (String × String)) (body1 body2 : String) :
    generate_signature secret_key method path headers body1 =
      generate_signature secret_key method path headers body2
  ∧ ∀ access_key body date,
      headerGet (prepare_request access_key secret_key method path body date).headers
        "Content-MD5" = "" :=
  ⟨rfl, fun _ _ _ => rfl⟩

/-! ## C5: ImageSaver is best-effort per item -/

/-- The URL saver loop equals the filter-and-map form, for every start
index. -/
theorem save_images_go_eq (fetch : Nat → Bool) (dir : String) (ts : Nat → String) :
    ∀ (images : List ImageDescriptor) (i : Nat),
      save_images_go fetch dir ts images i =
        ((images.enumFrom i).filter (fun q => hasValidUrl q.2 && fetch q.1)).map
          (fun q => path_join dir (image_filename (ts q.1) q.1)) := by
  intro images
  induction images with
  | nil => intro i; rfl
  | cons d rest ih =>
    intro i
    cases hv : hasValidUrl d <;> cases hf : fetch i <;>
      simp [save_images_go, List.enumFrom, List.filter_cons, hv, hf, ih (i + 1)]

/-- The base64 saver loop equals the filter-and-map form, for every start
index. -/
theorem save_images_from_base64_go_eq (eff : Nat → Bool) (dir : String) (ts : Nat → String) :
    ∀ (images : List ImageDescriptor) (i : Nat),
      save_images_from_base64_go eff dir ts images i =
        ((images.enumFrom i).filter (fun q => hasInlineData q.2 && eff q.1)).map
          (fun q => path_join dir (image_filename (ts q.1) q.1)) := by
  intro images
  induction images with
  | nil => intro i; rfl
  | cons d rest ih =>
    intro i
    cases hv : hasInlineData d <;> cases hf : eff i <;>
      simp [save_images_from_base64_go, List.enumFrom, List.filter_cons, hv, hf, ih (i + 1)]

/-- C5: both ImageSaver entry points total functions (never raising, in the
embedding), returning exactly the paths of the items that carry usable data
(a valid URL resp. inline base64) and whose per-item work succeeds — items
lacking data are skipped, one item's failure does not abort the rest, and
the result may be shorter than the input. -/
theorem c5_image_saver_best_effort (images : List ImageDescriptor) (fetch eff : Nat → Bool)
    (dir : String) (ts tsB : Nat → String) :
    save_images images fetch dir ts = saved_paths hasValidUrl fetch dir ts images
  ∧ save_images_from_base64 images eff dir tsB = saved_paths hasInlineData eff dir tsB images
  ∧ (save_images images fetch dir ts).length ≤ images.length
  ∧ (save_images_from_base64 images eff dir tsB).length ≤ images.length := by
  have h1 : save_images images fetch dir ts = saved_paths hasValidUrl fetch dir ts images := by
    unfold save_images saved_paths List.enum
    exact save_images_go_eq fetch dir ts images 0
  have h2 : save_images_from_base64 images eff dir tsB =
      saved_paths hasInlineData eff dir tsB images := by
    unfold save_images_from_base64 saved_paths List.enum
    exact save_images_from_base64_go_eq eff dir tsB images 0
  refine ⟨h1, h2, ?_, ?_⟩
  · rw [h1]
    unfold saved_paths
    rw [List.length_map]
    calc (List.filter _ images.enum).length ≤ images.enum.length := List.length_filter_le _ _
      _ = images.length := List.enum_length
  · rw [h2]
    unfold saved_paths
    rw [List.length_map]
    calc (List.filter _ images.enum).length ≤ images.enum.length := List.length_filter_le _ _
      _ = images.length := List.enum_length

/-! ## C3: the polling loop -/

/-- When no poll from index `k` on observes a terminal status before the
deadline, the loop runs into the deadline and the exit index `c` satisfies
`timeout ≤ c * poll_interval`. -/
theorem wait_go_timeout (polls : Nat → PollOutcome) (t p : Nat) (hp : 0 < p) :
    ∀ n k, t - k * p ≤ n →
      (∀ j, k ≤ j → j * p < t → outcomeTerminal (polls j) = false) →
      ∃ c, wait_go polls t p hp k = (timeoutResult, c) ∧ t ≤ c * p := by
  intro n
  induction n with
  | zero =>
    intro k hk _
    have hkt : ¬ k * p < t := by omega
    rw [wait_go, dif_neg hkt]
    exact ⟨k, rfl, by omega⟩
  | succ n ih =>
    intro k hk hno
    by_cases hkt : k * p < t
    · have hmul : (k + 1) * p = k * p + p := Nat.succ_mul k p
      have hk' : t - (k + 1) * p ≤ n := by omega
      have hno' : ∀ j, k + 1 ≤ j → j * p < t → outcomeTerminal (polls j) = false :=
        fun j hj => hno j (by omega)
      rw [wait_go, dif_pos hkt]
      cases hpk : polls k with
      | transportError => exact ih (k + 1) hk' hno'
      | response r =>
        have hterm : isTerminal r = false := by
          have h0 := hno k (Nat.le_refl k) hkt
          rw [hpk] at h0
          exact h0
        simp only [hterm]
        exact ih (k + 1) hk' hno'
    · rw [wait_go, dif_neg hkt]
      exact ⟨k, rfl, by omega⟩

/-- When the first terminal poll is at index `k` (before the deadline), the
loop started at any `i ≤ k` returns that poll's result after `k + 1`
polls. -/
theorem wait_go_terminal (polls : Nat → PollOutcome) (t p : Nat) (hp : 0 < p) :
    ∀ n i k r, k - i ≤ n → i ≤ k → k * p < t → polls k = .response r →
      isTerminal r = true →
      (∀ j, i ≤ j → j < k → outcomeTerminal (polls j) = false) →
      wait_go polls t p hp i = (r, k + 1) := by
  intro n
  induction n with
  | zero =>
    intro i k r hn hik hkt hpk hterm _
    have hik2 : i = k := by omega
    subst hik2
    rw [wait_go, dif_pos hkt, hpk]
    simp [hterm]
  | succ n ih =>
    intro i k r hn hik hkt hpk hterm hno
    by_cases hik2 : i = k
    · subst hik2
      rw [wait_go, dif_pos hkt, hpk]
      simp [hterm]
    · have hi : i < k := by omega
      have hit : i * p < t := by
        have hmono : i * p ≤ k * p := Nat.mul_le_mul_right p (by omega)
        omega
      rw [wait_go, dif_pos hit]
      have hnoi : outcomeTerminal (polls i) = false := hno i (Nat.le_refl i) hi
      cases hpi : polls i with
      | transportError =>
        exact ih (i + 1) k r (by omega) (by omega) hkt hpk hterm
          (fun j hj1 hj2 => hno j (by omega) hj2)
      | response ri =>
        have hri : isTerminal ri = false := by rw [hpi] at hnoi; exact hnoi
        simp only [hri]
        exact ih (i + 1) k r (by omega) (by omega) hkt hpk hterm
          (fun j hj1 hj2 => hno j (by omega) hj2)

/-- C3: for every poll oracle, timeout and positive poll interval — if no
poll before the deadline observes a terminal status (`"succeeded"` or
`"failed"`), `wait_for_result` returns the synthetic
`{status: "timeout", error: "Task timed out"}` result having issued at
least `⌊timeout / poll_interval⌋` polls; and when the first terminal poll
happens at index `k` before the deadline, it returns exactly that last
fetched result. -/
theorem c3_wait_for_result_spec (polls : Nat → PollOutcome) (timeout poll_interval : Nat)
    (hp : 0 < poll_interval) :
    ((∀ k, k * poll_interval < timeout → outcomeTerminal (polls k) = false) →
      ∃ c, wait_for_result polls timeout poll_interval hp = (timeoutResult, c) ∧
        timeout / poll_interval ≤ c)
  ∧ ∀ k r, k * poll_interval < timeout → polls k = .response r → isTerminal r = true →
      (∀ j, j < k → outcomeTerminal (polls j) = false) →
      wait_for_result polls timeout poll_interval hp = (r, k + 1) := by
  constructor
  · intro hno
    obtain ⟨c, hc, hcp⟩ :=
      wait_go_timeout polls timeout poll_interval hp timeout 0 (by omega) (fun j _ => hno j)
    refine ⟨c, hc, ?_⟩
    calc timeout / poll_interval ≤ c * poll_interval / poll_interval :=
          Nat.div_le_div_right hcp
      _ = c := Nat.mul_div_cancel c hp
  · intro k r hkt hpk hterm hno
    exact wait_go_terminal polls timeout poll_interval hp k 0 k r (by omega) (Nat.zero_le k)
      hkt hpk hterm (fun j _ hj => hno j hj)

/-- C3 (witness): with every poll failing, `timeout = 10` and
`poll_interval = 3`, the loop returns the timeout result after at least
`⌊10/3⌋ = 3` polls; with the second poll succeeding it returns that result
after 2 polls. -/
theorem c3_witness :
    (∃ c, wait_for_result pollsAllFail 10 3 (by decide) = (timeoutResult, c) ∧ 10 / 3 ≤ c)
  ∧ wait_for_result pollsSucceedAt1 10 3 (by decide) = (succeededAt1, 2) := by
  constructor
  · exact (c3_wait_for_result_spec pollsAllFail 10 3 (by decide)).1 (fun k _ => rfl)
  · refine (c3_wait_for_result_spec pollsSucceedAt1 10 3 (by decide)).2 1 succeededAt1
      (by decide) rfl rfl ?_
    intro j hj
    have hj0 : j = 0 := by omega
    subst hj0
    rfl

/-! ## C2 and C7: orchestrator validation at the two entry points -/

/-- A successful prompt selection implies at least one truthy prompt
source. -/
theorem select_prompts_source (args : CliArgs) (fps : List String) (stdin : String)
    (prompts : List String) (h : select_prompts args fps stdin = some prompts) :
    truthyOpt args.file = true ∨ truthyOpt args.prompt = true ∨ pyStrip stdin ≠ "" := by
  unfold select_prompts at h
  by_cases hf : truthyOpt args.file = true
  · exact .inl hf
  · rw [if_neg hf] at h
    by_cases hq : truthyOpt args.prompt = true
    · exact .inr (.inl hq)
    · rw [if_neg hq] at h
      refine .inr (.inr ?_)
      intro hs
      rw [hs] at h
      simp at h

/-- Every run of the CLI validation phase either exits with code 1 before
any network call, or enters the generation loop having passed every check. -/
theorem cliMain_shape (args : CliArgs) (envAK envSK : Option String)
    (fps : List String) (stdin : String) :
    cliMain args envAK envSK fps stdin = .exitError 1 ∨
    ∃ prompts, cliMain args envAK envSK fps stdin =
        .run { prompts := prompts, output := args.output, size := args.size,
               count := args.count, seed := args.seed, scale := args.scale,
               with_watermark := !args.no_watermark } ∧
      valid_sizes.contains args.size = true ∧
      1 ≤ args.count ∧ args.count ≤ 10 ∧ 0 ≤ args.scale ∧ args.scale ≤ 1 ∧
      (truthyOpt args.file = true ∨ truthyOpt args.prompt = true ∨ pyStrip stdin ≠ "") := by
  unfold cliMain
  by_cases h1 : (!truthyOpt (orTruthy args.access_key envAK) ||
      !truthyOpt (orTruthy args.secret_key envSK)) = true
  · rw [if_pos h1]; exact .inl rfl
  rw [if_neg h1]
  by_cases h2 : (!valid_sizes.contains args.size) = true
  · rw [if_pos h2]; exact .inl rfl
  rw [if_neg h2]
  by_cases h3 : (decide (args.count < 1) || decide (args.count > 10)) = true
  · rw [if_pos h3]; exact .inl rfl
  rw [if_neg h3]
  by_cases h4 : (decide (args.scale < 0) || decide (args.scale > 1)) = true
  · rw [if_pos h4]; exact .inl rfl
  rw [if_neg h4]
  cases hsel : select_prompts args fps stdin with
  | none => exact .inl rfl
  | some prompts =>
    refine .inr ⟨prompts, rfl, ?_, ?_, ?_, ?_, ?_, select_prompts_source args fps stdin prompts hsel⟩
    · simpa using h2
    · simp only [Bool.or_eq_true, decide_eq_true_eq, not_or] at h3
      omega
    · simp only [Bool.or_eq_true, decide_eq_true_eq, not_or] at h3
      omega
    · simp only [Bool.or_eq_true, decide_eq_true_eq, not_or] at h4
      exact not_lt.1 h4.1
    · simp only [Bool.or_eq_true, decide_eq_true_eq, not_or] at h4
      exact not_lt.1 h4.2

/-- C2 (counterexample): the HTTP entry point does NOT reject `count = 0`
with a 400 validation error — for an otherwise valid request with
`count = 0` it clamps the count to 1 and proceeds to invoke generation (and
hence the provider network call). -/
theorem c2_counterexample :
    generate_route (some bodyCount0) = .invoke "a cat" "1024x1024" 1 (-1) (mkRat 1 2) true := by
  decide

/-- C2 (amended): the CLI entry point rejects `count = 0`, `count = 11`,
`scale = -0.1`, `scale = 1.1`, `size = "999x999"` and an absent/blank prompt,
each with exit code 1 before any network call; the HTTP entry point rejects
the empty prompt and `size = "999x999"` with a 400 before invoking
generation, but it does not reject out-of-range `count` or `scale`: it
clamps `count` to `[1, 10]` and `scale` to `[0, 1]` and proceeds to invoke
generation (a network call). -/
theorem c2_orchestrator_validation (args : CliArgs) (envAK envSK : Option String)
    (fps : List String) (stdin : String) (d : GenReqBody) :
    (args.count = 0 ∨ args.count = 11 ∨ args.scale = mkRat (-1) 10 ∨
        args.scale = mkRat 11 10 ∨ args.size = "999x999" →
      cliMain args envAK envSK fps stdin = .exitError 1)
  ∧ (truthyOpt args.file = false → truthyOpt args.prompt = false → pyStrip stdin = "" →
      cliMain args envAK envSK fps stdin = .exitError 1)
  ∧ (d.prompt = some "" → generate_route (some d) = .reject 400)
  ∧ (∀ p, d.prompt = some p → pyStrip p ≠ "" → (pyStrip p).length ≤ 500 →
      d.size = "999x999" → generate_route (some d) = .reject 400)
  ∧ (∀ p, d.prompt = some p → pyStrip p ≠ "" → (pyStrip p).length ≤ 500 →
      valid_sizes.contains d.size = true →
      generate_route (some d) =
        .invoke (pyStrip p) d.size (min (max 1 d.count) 10) d.seed
          (min (max 0 d.scale) 1) (!d.no_watermark)) := by
  refine ⟨?_, ?_, ?_, ?_, ?_⟩
  · intro hbad
    rcases cliMain_shape args envAK envSK fps stdin with h | ⟨prompts, _, hsz, hc1, hc2, hs0, hs1, _⟩
    · exact h
    · exfalso
      rcases hbad with h0 | h0 | h0 | h0 | h0
      · omega
      · omega
      · rw [h0] at hs0; exact absurd hs0 (by decide)
      · rw [h0] at hs1; exact absurd hs1 (by decide)
      · rw [h0] at hsz; exact absurd hsz (by decide)
  · intro hf hq hs
    rcases cliMain_shape args envAK envSK fps stdin with h | ⟨prompts, _, _, _, _, _, _, hsrc⟩
    · exact h
    · exfalso
      rcases hsrc with h0 | h0 | h0
      · rw [hf] at h0; exact absurd h0 (by decide)
      · rw [hq] at h0; exact absurd h0 (by decide)
      · exact h0 hs
  · intro hp
    simp only [generate_route, hp]
    rfl
  · intro p hp hne hlen hsz
    have hne' : ¬ (pyStrip p == "") = true := by simpa using hne
    have hlen' : ¬ ((pyStrip p).length > 500) := by omega
    simp only [generate_route, hp, if_neg hne', if_neg hlen', hsz]
    rfl
  · intro p hp hne hlen hsz
    have hne' : ¬ (pyStrip p == "") = true := by simpa using hne
    have hlen' : ¬ ((pyStrip p).length > 500) := by omega
    simp only [generate_route, hp, if_neg hne', if_neg hlen', hsz]
    rfl

/-- C2 (witness): each rejection and each clamping behaviour at one concrete
input. -/
theorem c2_witness :
    (cliMain argsCount0 none none [] "" = .exitError 1
  ∧ cliMain argsCount11 none none [] "" = .exitError 1
  ∧ cliMain argsScaleNeg none none [] "" = .exitError 1
  ∧ cliMain argsScaleBig none none [] "" = .exitError 1
  ∧ cliMain argsBadSize none none [] "" = .exitError 1
  ∧ cliMain argsNoPrompt none none [] "  " = .exitError 1)
  ∧ (generate_route (some bodyEmptyPrompt) = .reject 400
  ∧ generate_route (some bodyBadSize) = .reject 400
  ∧ generate_route (some bodyCount11) = .invoke "a cat" "1024x1024" 10 (-1) (mkRat 1 2) true
  ∧ generate_route (some bodyScaleBig) = .invoke "a cat" "1024x1024" 1 (-1) 1 true) := by
  refine ⟨⟨?_, ?_, ?_, ?_, ?_, ?_⟩, ?_, ?_, ?_, ?_⟩
  · exact (c2_orchestrator_validation argsCount0 none none [] "" bodyCount0).1 (.inl rfl)
  · exact (c2_orchestrator_validation argsCount11 none none [] "" bodyCount0).1 (.inr (.inl rfl))
  · exact (c2_orchestrator_validation argsScaleNeg none none [] "" bodyCount0).1
      (.inr (.inr (.inl rfl)))
  · exact (c2_orchestrator_validation argsScaleBig none none [] "" bodyCount0).1
      (.inr (.inr (.inr (.inl rfl))))
  · exact (c2_orchestrator_validation argsBadSize none none [] "" bodyCount0).1
      (.inr (.inr (.inr (.inr rfl))))
  · exact (c2_orchestrator_validation argsNoPrompt none none [] "  " bodyCount0).2.1
      rfl rfl (by decide)
  · exact (c2_orchestrator_validation argsCount0 none none [] "" bodyEmptyPrompt).2.2.1 rfl
  · exact (c2_orchestrator_validation argsCount0 none none [] "" bodyBadSize).2.2.2.1
      "a cat" rfl (by decide) (by decide) rfl
  · exact (c2_orchestrator_validation argsCount0 none none [] "" bodyCount11).2.2.2.2
      "a cat" rfl (by decide) (by decide) (by decide)
  · exact (c2_orchestrator_validation argsCount0 none none [] "" bodyScaleBig).2.2.2.2
      "a cat" rfl (by decide) (by decide) (by decide)

set_option maxRecDepth 40000 in
/-- C7 (counterexample): the CLI entry point does not reject prompts longer
than 500 characters: a 501-character prompt passes validation and the run
proceeds to request construction and the network call. -/
theorem c7_counterexample :
    longPrompt.length = 501 ∧
    cliMain argsLongPrompt none none [] "" =
      .run { prompts := [longPrompt], output := "output", size := "2048x2048", count := 1,
             seed := -1, scale := mkRat 1 2, with_watermark := true } := by
  constructor
  · decide
  · decide

/-- C7 (amended): only the HTTP entry point enforces the 500-character
limit — it rejects any request whose stripped prompt is longer than 500
characters with a 400 before invoking generation — while the CLI entry
point performs no prompt-length validation at all: with credentials present
and size/count/scale valid it proceeds to the generation loop (and its
network calls) for a truthy `--prompt` of any length. -/
theorem c7_prompt_length_validation (d : GenReqBody) (p : String) (args : CliArgs)
    (envAK envSK : Option String) (fps : List String) (stdin : String) (q : String) :
    (d.prompt = some p → (pyStrip p).length > 500 → generate_route (some d) = .reject 400)
  ∧ (truthyOpt (orTruthy args.access_key envAK) = true →
      truthyOpt (orTruthy args.secret_key envSK) = true →
      valid_sizes.contains args.size = true →
      1 ≤ args.count → args.count ≤ 10 → 0 ≤ args.scale → args.scale ≤ 1 →
      args.file = none → args.prompt = some q → q ≠ "" →
      cliMain args envAK envSK fps stdin =
        .run { prompts := [q], output := args.output, size := args.size, count := args.count,
               seed := args.seed, scale := args.scale, with_watermark := !args.no_watermark }) := by
  constructor
  · intro hp hlen
    have hne' : ¬ (pyStrip p == "") = true := by
      simp only [beq_iff_eq]
      intro h0
      rw [h0] at hlen
      simp at hlen
    simp only [generate_route, hp, if_neg hne', if_pos hlen]
  · intro hak hsk hsz hc1 hc2 hs0 hs1 hfile hq hqne
    have hq' : truthyOpt (some q) = true := by
      simp only [truthyOpt, Bool.not_eq_true']
      exact beq_eq_false_iff_ne.mpr hqne
    have hsel : select_prompts args fps stdin = some [q] := by
      unfold select_prompts
      rw [hfile, if_neg (by decide), hq, if_pos hq']
      rfl
    unfold cliMain
    rw [if_neg (by simp [hak, hsk]), if_neg (by rw [hsz]; decide),
      if_neg (by simp only [Bool.or_eq_true, decide_eq_true_eq, not_or]; omega),
      if_neg (by
        simp only [Bool.or_eq_true, decide_eq_true_eq, not_or]
        exact ⟨not_lt.2 hs0, not_lt.2 hs1⟩),
      hsel]

set_option maxRecDepth 40000 in
/-- C7 (witness): the HTTP route rejects a 501-character prompt with 400;
the CLI accepts a 502-character prompt and proceeds. -/
theorem c7_witness :
    ((pyStrip longPrompt).length > 500 ∧ generate_route (some bodyLongPrompt) = .reject 400)
  ∧ (longPromptB.length = 502 ∧
      cliMain argsLongPromptB none none [] "" =
        .run { prompts := [longPromptB], output := "output", size := "2048x2048", count := 1,
               seed := -1, scale := mkRat 1 2, with_watermark := true }) := by
  refine ⟨⟨by decide, ?_⟩, by decide, ?_⟩
  · exact (c7_prompt_length_validation bodyLongPrompt longPrompt argsLongPromptB none none [] ""
      "x").1 rfl (by decide)
  · exact (c7_prompt_length_validation bodyLongPrompt longPromptB argsLongPromptB none none [] ""
      longPromptB).2 (by decide) (by decide) (by decide) (by decide) (by decide) (by decide)
      (by decide) rfl rfl (by decide)

end Jimeng4
